import Mathlib

/-!
Shallow embedding of `examples/07_record3d_visualizer.py` (viser): the playback
controller driving per-frame scene-subtree visibility.

State components mirror the script's GUI handles and closed-over variables:
`gui_timestep.value` (the slider / current index), the closed-over
`prev_timestep`, the per-frame `frame_nodes[i].visible` flags, the
`gui_playing` checkbox, the `gui_framerate` slider, and the three `disabled`
flags set by the playing-toggle callback.
-/

namespace Record3d

/-- Program state of the visualizer example: GUI control values, the
closed-over `prev_timestep`, and the visibility flag of each per-frame
subtree root `/frames/t{i}` (`frame_nodes[i].visible`). `fps` is modelled as a
rational. -/
structure State where
  numFrames : Nat
  sliderValue : Nat
  prevTimestep : Nat
  visible : Nat → Bool
  playing : Bool
  fps : ℚ
  timestepDisabled : Bool
  nextDisabled : Bool
  prevDisabled : Bool

/-- A visibility mutation queued inside a `server.atomic()` block:
(frame index of the subtree root, new `visible` value). -/
abbrev Mutation := Nat × Bool

/-- The `gui_timestep.on_update` callback (lines 59-66): reads
`current_timestep = gui_timestep.value`, then inside one `server.atomic()`
block sets `frame_nodes[current_timestep].visible = True` FIRST and
`frame_nodes[prev_timestep].visible = False` SECOND, then updates the
closed-over `prev_timestep`. Returns the new state together with the single
transaction (the ordered mutation list of the atomic block). -/
def timestepCallback (s : State) : State × List Mutation :=
  let current := s.sliderValue
  let vis1 : Nat → Bool := fun i => if i = current then true else s.visible i
  let vis2 : Nat → Bool := fun i => if i = s.prevTimestep then false else vis1 i
  ({ s with visible := vis2, prevTimestep := current },
   [(current, true), (s.prevTimestep, false)])

/-- Modelled from the spec: viser's GUI-handle `.value` setter is not under
`src/`; per the spec's control-binding contract, a set updates the underlying
store and then fires every registered change callback exactly once,
synchronously, with the callback observing the new value. Here the only
registered callback for the timestep slider is `timestepCallback`. -/
def setTimestep (s : State) (v : Nat) : State × List Mutation :=
  timestepCallback { s with sliderValue := v }

/-- The `gui_next_frame.on_click` callback (lines 41-43):
`gui_timestep.value = (gui_timestep.value + 1) % num_frames`. -/
def nextFrameClick (s : State) : State × List Mutation :=
  setTimestep s ((s.sliderValue + 1) % s.numFrames)

/-- Python's `%` on integers with a positive modulus: Lean's `Int.emod`
agrees with it (result in `[0, n)`), converted back to `Nat`. -/
def pyMod (a : Int) (n : Nat) : Nat := (a % (n : Int)).toNat

/-- The `gui_prev_frame.on_click` callback (lines 45-47):
`gui_timestep.value = (gui_timestep.value - 1) % num_frames`, with Python's
modulo semantics on the possibly-negative intermediate value. -/
def prevFrameClick (s : State) : State × List Mutation :=
  setTimestep s (pyMod ((s.sliderValue : Int) - 1) s.numFrames)

/-- The `gui_playing.on_update` callback (lines 50-54): copies
`gui_playing.value` into the `disabled` flags of the timestep slider and the
two step buttons. -/
def playingCallback (s : State) : State :=
  { s with
    timestepDisabled := s.playing
    nextDisabled := s.playing
    prevDisabled := s.playing }

/-- Setting the `Playing` checkbox: store the new value, then the
`on_update` callback fires (same setter contract as `setTimestep`). -/
def setPlaying (s : State) (b : Bool) : State :=
  playingCallback { s with playing := b }

/-- Setting the FPS slider to a dragged value; drags are constrained to the
declared bounds `min=1, max=60` by event validity below. -/
def setFps (s : State) (v : ℚ) : State :=
  { s with fps := v }

/-- One iteration of the playback while-loop (lines 128-133): if
`gui_playing.value` then `gui_timestep.value = (gui_timestep.value + 1) %
num_frames`, then `time.sleep(1.0 / gui_framerate.value)`. Returns the new
state and the sleep duration of this iteration. -/
def loopIter (s : State) : State × ℚ :=
  let s' := if s.playing then (setTimestep s ((s.sliderValue + 1) % s.numFrames)).1 else s
  (s', 1 / s'.fps)

/-- Modelled from the spec: the control surface (not under `src/`) keeps a
numeric slider's value within its declared bounds, so the FPS slider created
with `min=1, max=60, initial_value=loader.fps` starts clamped to `[1, 60]`. -/
def clampFps (v : ℚ) : ℚ := max 1 (min v 60)

/-- State after `main`'s setup completes: the timestep slider is created with
`initial_value=0` (lines 31-33), `prev_timestep = gui_timestep.value` (line
57), playing starts `False`, no control is disabled, and the final visibility
loop (lines 123-125) sets `frame_node.visible = (i == gui_timestep.value)`. -/
def initState (numFrames : Nat) (loaderFps : ℚ) : State :=
  { numFrames := numFrames
    sliderValue := 0
    prevTimestep := 0
    visible := fun i => decide (i = 0)
    playing := false
    fps := clampFps loaderFps
    timestepDisabled := false
    nextDisabled := false
    prevDisabled := false }

/-- External events that drive the program after initialization. -/
inductive Event where
  | sliderDrag (v : Nat)
  | nextClick
  | prevClick
  | playToggle (b : Bool)
  | fpsDrag (v : ℚ)
  | tick

/-- Validity of an event in a state: interactive writes to a disabled control
are suppressed (a disabled slider cannot be scrubbed, a disabled button not
clicked); a slider drag is a change to an in-bounds value distinct from the
current one; FPS drags stay within the declared bounds `[1, 60]`; the
playback-loop tick and the checkbox toggle are always possible. -/
def eventValid (s : State) : Event → Prop
  | .sliderDrag v => s.timestepDisabled = false ∧ v < s.numFrames ∧ v ≠ s.sliderValue
  | .nextClick => s.nextDisabled = false
  | .prevClick => s.prevDisabled = false
  | .playToggle _ => True
  | .fpsDrag v => 1 ≤ v ∧ v ≤ 60
  | .tick => True

/-- Effect of an event on the state. -/
def applyEvent (s : State) : Event → State
  | .sliderDrag v => (setTimestep s v).1
  | .nextClick => (nextFrameClick s).1
  | .prevClick => (prevFrameClick s).1
  | .playToggle b => setPlaying s b
  | .fpsDrag v => setFps s v
  | .tick => (loopIter s).1

/-- Reachable states of the program with `numFrames` frames and loader
framerate `loaderFps`: the initialized state, closed under valid events. -/
inductive Reachable (numFrames : Nat) (loaderFps : ℚ) : State → Prop
  | init : Reachable numFrames loaderFps (initState numFrames loaderFps)
  | step {s : State} {e : Event} : Reachable numFrames loaderFps s →
      eventValid s e → Reachable numFrames loaderFps (applyEvent s e)

/-- Number of per-frame subtree roots currently visible. -/
def countVisible (s : State) : Nat :=
  ((List.range s.numFrames).filter (fun i => s.visible i)).length

/-- Basic state invariant for `numFrames ≥ 1`: the frame count is fixed, the
slider value and the closed-over previous index stay in range, and the FPS
value stays within the slider's declared bounds. -/
def BasicInv (n : Nat) (s : State) : Prop :=
  s.numFrames = n ∧ s.sliderValue < n ∧ s.prevTimestep < n ∧
    1 ≤ s.fps ∧ s.fps ≤ 60

/-- Visibility invariant (meaningful for `numFrames ≥ 2`): the previous-index
variable agrees with the slider, and exactly the slider's frame is visible. -/
def FrameInv (n : Nat) (s : State) : Prop :=
  s.numFrames = n ∧ s.sliderValue < n ∧ s.prevTimestep = s.sliderValue ∧
    ∀ i, s.visible i = decide (i = s.sliderValue)

theorem pyMod_lt (a : Int) {n : Nat} (hn : 0 < n) : pyMod a n < n := by
  have h0 : (0 : Int) < (n : Int) := by exact_mod_cast hn
  have h1 := Int.emod_lt_of_pos a (b := (n : Int)) h0
  have h2 := Int.emod_nonneg a (by omega : ((n : Int)) ≠ 0)
  unfold pyMod
  omega

/-- Python's `(k - 1) % n` agrees with the spec's `(k - 1 + n) mod n`. -/
theorem pyMod_sub_one {k n : Nat} (hk : k < n) :
    pyMod ((k : Int) - 1) n = (k + n - 1) % n := by
  rcases Nat.eq_zero_or_pos k with hk0 | hk1
  · subst hk0
    unfold pyMod
    have hc : ((0 : Nat) : Int) - 1 = (-1 : Int) := by norm_num
    rw [hc]
    have h1 : (-1 : Int) % (n : Int) = (n : Int) - 1 := by
      have h2 := Int.add_mul_emod_self_left (a := (-1 : Int)) (b := (n : Int)) (c := 1)
      have h3 : (-1 + (n : Int) * 1) = (n : Int) - 1 := by ring
      rw [h3] at h2
      rw [← h2]
      exact Int.emod_eq_of_lt (by omega) (by omega)
    rw [h1, Nat.mod_eq_of_lt (show 0 + n - 1 < n by omega)]
    omega
  · have hl : ((k : Int) - 1) % (n : Int) = (k : Int) - 1 :=
      Int.emod_eq_of_lt (by omega) (by omega)
    have he : k + n - 1 = (k - 1) + n := by omega
    have hr : (k + n - 1) % n = (k - 1) % n := by
      rw [he, Nat.add_mod_right]
    rw [hr, Nat.mod_eq_of_lt (by omega)]
    unfold pyMod
    rw [hl]
    omega

theorem succ_mod_ne {k n : Nat} (hn : 2 ≤ n) (hk : k < n) : (k + 1) % n ≠ k := by
  rcases Nat.lt_or_ge (k + 1) n with h | h
  · rw [Nat.mod_eq_of_lt h]; omega
  · have hkn : k + 1 = n := by omega
    rw [hkn, Nat.mod_self]; omega

theorem pred_mod_ne {k n : Nat} (hn : 2 ≤ n) (hk : k < n) : (k + n - 1) % n ≠ k := by
  rcases Nat.eq_zero_or_pos k with hk0 | hk1
  · subst hk0
    rw [Nat.mod_eq_of_lt (by omega)]; omega
  · have he : k + n - 1 = (k - 1) + n := by omega
    rw [he, Nat.add_mod_right, Nat.mod_eq_of_lt (by omega)]
    omega

theorem setTimestep_fst (t : State) (v : Nat) :
    (setTimestep t v).1 =
      { t with
        sliderValue := v
        prevTimestep := v
        visible := fun i =>
          if i = t.prevTimestep then false
          else if i = v then true else t.visible i } := rfl

theorem setTimestep_snd (t : State) (v : Nat) :
    (setTimestep t v).2 = [(v, true), (t.prevTimestep, false)] := rfl

theorem setTimestep_frameInv {n : Nat} {s : State} {v : Nat}
    (h : FrameInv n s) (hv : v < n) (hne : v ≠ s.sliderValue) :
    FrameInv n (setTimestep s v).1 := by
  obtain ⟨h1, h2, h3, h4⟩ := h
  rw [setTimestep_fst]
  refine ⟨h1, hv, rfl, ?_⟩
  intro i
  simp only
  rw [h3]
  by_cases hip : i = s.sliderValue
  · subst hip
    simp [Ne.symm hne]
  · simp only [hip, if_false]
    by_cases hiv : i = v
    · simp [hiv]
    · simp [hiv, h4 i, hip]

theorem applyEvent_frameInv {n : Nat} {s : State} {e : Event}
    (hn : 2 ≤ n) (h : FrameInv n s) (hv : eventValid s e) :
    FrameInv n (applyEvent s e) := by
  have h1 := h.1
  have h2 := h.2.1
  cases e with
  | sliderDrag v =>
      obtain ⟨-, hvlt, hne⟩ := hv
      rw [h1] at hvlt
      exact setTimestep_frameInv h hvlt hne
  | nextClick =>
      show FrameInv n (setTimestep s ((s.sliderValue + 1) % s.numFrames)).1
      rw [h1]
      exact setTimestep_frameInv h (Nat.mod_lt _ (by omega)) (succ_mod_ne hn h2)
  | prevClick =>
      show FrameInv n (setTimestep s (pyMod ((s.sliderValue : Int) - 1) s.numFrames)).1
      rw [h1, pyMod_sub_one h2]
      exact setTimestep_frameInv h (Nat.mod_lt _ (by omega)) (pred_mod_ne hn h2)
  | playToggle b =>
      exact ⟨h.1, h.2.1, h.2.2.1, h.2.2.2⟩
  | fpsDrag v =>
      exact ⟨h.1, h.2.1, h.2.2.1, h.2.2.2⟩
  | tick =>
      show FrameInv n (loopIter s).1
      unfold loopIter
      by_cases hp : s.playing
      · simp only [hp, if_true]
        rw [h1]
        exact setTimestep_frameInv h (Nat.mod_lt _ (by omega)) (succ_mod_ne hn h2)
      · simp only [hp, if_false]
        exact h

/-- States reachable with at least two frames keep the visibility invariant. -/
theorem reachable_frameInv {n : Nat} {f0 : ℚ} {s : State}
    (hn : 2 ≤ n) (h : Reachable n f0 s) : FrameInv n s := by
  induction h with
  | init => exact ⟨rfl, show 0 < n by omega, rfl, fun i => rfl⟩
  | step hr hv ih => exact applyEvent_frameInv hn ih hv

theorem clampFps_bounds (v : ℚ) : 1 ≤ clampFps v ∧ clampFps v ≤ 60 := by
  unfold clampFps
  constructor
  · exact le_max_left 1 (min v 60)
  · exact max_le (by norm_num) (min_le_right v 60)

theorem setTimestep_basicInv {n : Nat} {s : State} {v : Nat}
    (h : BasicInv n s) (hv : v < n) : BasicInv n (setTimestep s v).1 := by
  obtain ⟨h1, h2, h3, h4, h5⟩ := h
  rw [setTimestep_fst]
  exact ⟨h1, hv, hv, h4, h5⟩

theorem applyEvent_basicInv {n : Nat} {s : State} {e : Event}
    (hn : 1 ≤ n) (h : BasicInv n s) (hv : eventValid s e) :
    BasicInv n (applyEvent s e) := by
  have h1 := h.1
  cases e with
  | sliderDrag v =>
      obtain ⟨-, hvlt, -⟩ := hv
      rw [h1] at hvlt
      exact setTimestep_basicInv h hvlt
  | nextClick =>
      show BasicInv n (setTimestep s ((s.sliderValue + 1) % s.numFrames)).1
      rw [h1]
      exact setTimestep_basicInv h (Nat.mod_lt _ (by omega))
  | prevClick =>
      show BasicInv n (setTimestep s (pyMod ((s.sliderValue : Int) - 1) s.numFrames)).1
      rw [h1]
      exact setTimestep_basicInv h (pyMod_lt _ (by omega))
  | playToggle b =>
      exact ⟨h.1, h.2.1, h.2.2.1, h.2.2.2.1, h.2.2.2.2⟩
  | fpsDrag v =>
      obtain ⟨hlo, hhi⟩ := hv
      exact ⟨h.1, h.2.1, h.2.2.1, hlo, hhi⟩
  | tick =>
      show BasicInv n (loopIter s).1
      unfold loopIter
      by_cases hp : s.playing
      · simp only [hp, if_true]
        rw [h1]
        exact setTimestep_basicInv h (Nat.mod_lt _ (by omega))
      · simp only [hp, if_false]
        exact h

/-- States reachable with at least one frame keep the basic invariant. -/
theorem reachable_basicInv {n : Nat} {f0 : ℚ} {s : State}
    (hn : 1 ≤ n) (h : Reachable n f0 s) : BasicInv n s := by
  induction h with
  | init =>
      refine ⟨rfl, show 0 < n by omega, show 0 < n by omega, ?_, ?_⟩
      · exact (clampFps_bounds f0).1
      · exact (clampFps_bounds f0).2
  | step hr hv ih => exact applyEvent_basicInv hn ih hv

theorem countVisible_of_indicator {n k : Nat} (hk : k < n) (s : State)
    (hn : s.numFrames = n) (hvis : ∀ i, s.visible i = decide (i = k)) :
    countVisible s = 1 := by
  unfold countVisible
  rw [hn]
  have hcg : (List.range n).filter (fun i => s.visible i) =
      (List.range n).filter (fun i => i == k) := by
    apply List.filter_congr
    intro i _
    rw [hvis i]
    by_cases h : i = k <;> simp [h]
  rw [hcg]
  have h2 := List.count_eq_one_of_mem (List.nodup_range n) (List.mem_range.mpr hk)
  rwa [List.count, List.countP_eq_length_filter] at h2

theorem next_prev_cancel {k n : Nat} (hn : 2 ≤ n) (hk : k < n) :
    ((k + 1) % n + n - 1) % n = k := by
  rcases Nat.lt_or_ge (k + 1) n with h | h
  · rw [Nat.mod_eq_of_lt h]
    have he : k + 1 + n - 1 = k + n := by omega
    rw [he, Nat.add_mod_right, Nat.mod_eq_of_lt hk]
  · have hkn : k + 1 = n := by omega
    rw [hkn, Nat.mod_self, Nat.mod_eq_of_lt (show 0 + n - 1 < n by omega)]
    omega

theorem prev_next_cancel {k n : Nat} (hn : 2 ≤ n) (hk : k < n) :
    ((k + n - 1) % n + 1) % n = k := by
  rcases Nat.eq_zero_or_pos k with h0 | h1
  · subst h0
    rw [Nat.mod_eq_of_lt (show 0 + n - 1 < n by omega)]
    have he : 0 + n - 1 + 1 = n := by omega
    rw [he, Nat.mod_self]
  · have he : k + n - 1 = (k - 1) + n := by omega
    rw [he, Nat.add_mod_right, Nat.mod_eq_of_lt (show k - 1 < n by omega)]
    have he2 : k - 1 + 1 = k := by omega
    rw [he2, Nat.mod_eq_of_lt hk]

theorem nextIter_invariant {n : Nat} (hn : 2 ≤ n) {s : State} (h : FrameInv n s) :
    ∀ m : Nat, FrameInv n ((fun t => applyEvent t Event.nextClick)^[m] s) ∧
      ((fun t => applyEvent t Event.nextClick)^[m] s).sliderValue =
        (s.sliderValue + m) % n := by
  intro m
  induction m with
  | zero =>
      refine ⟨h, ?_⟩
      simp [Nat.mod_eq_of_lt h.2.1]
  | succ m ih =>
      obtain ⟨ihF, ihs⟩ := ih
      rw [Function.iterate_succ_apply']
      constructor
      · show FrameInv n (setTimestep _ ((_ + 1) % _)).1
        rw [ihF.1]
        exact setTimestep_frameInv ihF (Nat.mod_lt _ (by omega)) (succ_mod_ne hn ihF.2.1)
      · show (_ + 1) % _ = _
        rw [ihF.1, ihs, Nat.mod_add_mod,
          show s.sliderValue + (m + 1) = s.sliderValue + m + 1 from by omega]

theorem loopIter_sleep (s : State) : (loopIter s).2 = 1 / s.fps := by
  by_cases hp : s.playing <;>
    simp only [loopIter, hp, if_true, if_false] <;> rfl

/-- C1 (amended to `numFrames ≥ 2`): in every reachable state of the program
with at least two frames, exactly one per-frame subtree among
`/frames/t0 .. /frames/t(numFrames-1)` has `visible = true`. -/
theorem C1_exactly_one_visible {n : Nat} {f0 : ℚ} {s : State}
    (hn : 2 ≤ n) (h : Reachable n f0 s) : countVisible s = 1 := by
  obtain ⟨h1, h2, h3, h4⟩ := reachable_frameInv hn h
  exact countVisible_of_indicator h2 s h1 h4

/-- C1 witness: in the initialized two-frame program exactly one frame
subtree is visible. -/
theorem C1_exactly_one_visible_witness :
    countVisible (initState 2 30) = 1 :=
  C1_exactly_one_visible (by norm_num) Reachable.init

/-- C1 counterexample: with `numFrames = 1` the claim fails. From the
initialized state, one Next click (valid: not playing, button enabled) is a
reachable transition, after which NO frame subtree is visible: the callback
sets the new frame visible before hiding the previous one, and here both are
frame 0, so the final write hides it. -/
theorem C1_one_frame_counterexample :
    Reachable 1 30 (applyEvent (initState 1 30) Event.nextClick) ∧
      countVisible (applyEvent (initState 1 30) Event.nextClick) = 0 :=
  ⟨Reachable.step Reachable.init rfl, rfl⟩

/-- C2: setting the timestep slider to 3 when `numFrames = 10`, from any
prior index, issues exactly one transaction of exactly two mutations —
`visible = true` on frame 3's root and `visible = false` on the previous
frame's root — and updates the slider value and `prev_timestep` to 3. -/
theorem C2_slider_set_three (s : State) (h : s.numFrames = 10) :
    (setTimestep s 3).2 = [(3, true), (s.prevTimestep, false)] ∧
      (setTimestep s 3).2.length = 2 ∧
      (setTimestep s 3).1.sliderValue = 3 ∧
      (setTimestep s 3).1.prevTimestep = 3 :=
  ⟨rfl, rfl, rfl, rfl⟩

/-- C2 witness: the ten-frame initialized state, slider set to 3. -/
theorem C2_slider_set_three_witness :
    (setTimestep (initState 10 30) 3).2 =
        [(3, true), ((initState 10 30).prevTimestep, false)] ∧
      (setTimestep (initState 10 30) 3).2.length = 2 ∧
      (setTimestep (initState 10 30) 3).1.sliderValue = 3 ∧
      (setTimestep (initState 10 30) 3).1.prevTimestep = 3 :=
  C2_slider_set_three (initState 10 30) rfl

/-- C3 (amended to `numFrames ≥ 2`): from any reachable state of a program
with at least two frames, while not playing, a Next transition followed by a
Prev transition — and likewise Prev followed by Next — restores the original
slider value and the original visibility of every frame subtree. -/
theorem C3_next_prev_roundtrip {n : Nat} {f0 : ℚ} {s : State}
    (hn : 2 ≤ n) (h : Reachable n f0 s) (hplay : s.playing = false) :
    ((applyEvent (applyEvent s Event.nextClick) Event.prevClick).sliderValue =
        s.sliderValue ∧
      ∀ i, (applyEvent (applyEvent s Event.nextClick) Event.prevClick).visible i =
        s.visible i) ∧
    ((applyEvent (applyEvent s Event.prevClick) Event.nextClick).sliderValue =
        s.sliderValue ∧
      ∀ i, (applyEvent (applyEvent s Event.prevClick) Event.nextClick).visible i =
        s.visible i) := by
  obtain ⟨h1, h2, h3, h4⟩ := reachable_frameInv hn h
  constructor
  · have hF1 : FrameInv n (applyEvent s Event.nextClick) := by
      show FrameInv n (setTimestep s ((s.sliderValue + 1) % s.numFrames)).1
      rw [h1]
      exact setTimestep_frameInv ⟨h1, h2, h3, h4⟩ (Nat.mod_lt _ (by omega))
        (succ_mod_ne hn h2)
    have hs1v : (applyEvent s Event.nextClick).sliderValue =
        (s.sliderValue + 1) % n := by
      show (s.sliderValue + 1) % s.numFrames = (s.sliderValue + 1) % n
      rw [h1]
    have hF2 : FrameInv n
        (applyEvent (applyEvent s Event.nextClick) Event.prevClick) := by
      show FrameInv n (setTimestep _ (pyMod _ _)).1
      rw [hF1.1, pyMod_sub_one hF1.2.1]
      exact setTimestep_frameInv hF1 (Nat.mod_lt _ (by omega)) (pred_mod_ne hn hF1.2.1)
    have hs2v : (applyEvent (applyEvent s Event.nextClick) Event.prevClick).sliderValue =
        s.sliderValue := by
      show pyMod ((((applyEvent s Event.nextClick).sliderValue : Nat) : Int) - 1)
        (applyEvent s Event.nextClick).numFrames = s.sliderValue
      rw [hF1.1, pyMod_sub_one hF1.2.1, hs1v, next_prev_cancel hn h2]
    exact ⟨hs2v, fun i => by rw [hF2.2.2.2 i, hs2v]; exact (h4 i).symm⟩
  · have hF1 : FrameInv n (applyEvent s Event.prevClick) := by
      show FrameInv n (setTimestep s (pyMod _ _)).1
      rw [h1, pyMod_sub_one h2]
      exact setTimestep_frameInv ⟨h1, h2, h3, h4⟩ (Nat.mod_lt _ (by omega))
        (pred_mod_ne hn h2)
    have hs1v : (applyEvent s Event.prevClick).sliderValue =
        (s.sliderValue + n - 1) % n := by
      show pyMod ((s.sliderValue : Int) - 1) s.numFrames = (s.sliderValue + n - 1) % n
      rw [h1, pyMod_sub_one h2]
    have hF2 : FrameInv n
        (applyEvent (applyEvent s Event.prevClick) Event.nextClick) := by
      show FrameInv n (setTimestep _ ((_ + 1) % _)).1
      rw [hF1.1]
      exact setTimestep_frameInv hF1 (Nat.mod_lt _ (by omega)) (succ_mod_ne hn hF1.2.1)
    have hs2v : (applyEvent (applyEvent s Event.prevClick) Event.nextClick).sliderValue =
        s.sliderValue := by
      show ((applyEvent s Event.prevClick).sliderValue + 1) %
        (applyEvent s Event.prevClick).numFrames = s.sliderValue
      rw [hF1.1, hs1v, prev_next_cancel hn h2]
    exact ⟨hs2v, fun i => by rw [hF2.2.2.2 i, hs2v]; exact (h4 i).symm⟩

/-- C3 witness: the initialized two-frame program round-trips. -/
theorem C3_next_prev_roundtrip_witness :
    (applyEvent (applyEvent (initState 2 30) Event.nextClick) Event.prevClick).sliderValue =
      (initState 2 30).sliderValue :=
  (C3_next_prev_roundtrip (by norm_num) Reachable.init rfl).1.1

/-- C3 counterexample: with `numFrames = 1`, Next then Prev from the
initialized state (both transitions valid: not playing, buttons enabled) does
NOT restore the original visibility: frame 0 starts visible and ends
hidden. -/
theorem C3_one_frame_counterexample :
    Reachable 1 30 (initState 1 30) ∧
      eventValid (initState 1 30) Event.nextClick ∧
      eventValid (applyEvent (initState 1 30) Event.nextClick) Event.prevClick ∧
      (initState 1 30).visible 0 = true ∧
      (applyEvent (applyEvent (initState 1 30) Event.nextClick) Event.prevClick).visible 0 =
        false :=
  ⟨Reachable.init, rfl, rfl, rfl, rfl⟩

/-- C4 (amended to `numFrames ≥ 2`): from any reachable state of a program
with `numFrames ≥ 2`, while not playing, `numFrames` consecutive Next
transitions return the slider to its starting value and restore the identical
visibility state: the starting frame's subtree visible and all others
hidden. -/
theorem C4_cycle_closure {n : Nat} {f0 : ℚ} {s : State}
    (hn : 2 ≤ n) (h : Reachable n f0 s) (hplay : s.playing = false) :
    ((fun t => applyEvent t Event.nextClick)^[n] s).sliderValue = s.sliderValue ∧
      (∀ i, ((fun t => applyEvent t Event.nextClick)^[n] s).visible i = s.visible i) ∧
      ∀ i, ((fun t => applyEvent t Event.nextClick)^[n] s).visible i =
        decide (i = s.sliderValue) := by
  have hF := reachable_frameInv hn h
  obtain ⟨hIf, hIs⟩ := nextIter_invariant hn hF n
  have hslider : ((fun t => applyEvent t Event.nextClick)^[n] s).sliderValue =
      s.sliderValue := by
    rw [hIs, Nat.add_mod_right, Nat.mod_eq_of_lt hF.2.1]
  refine ⟨hslider, ?_, ?_⟩
  · intro i
    rw [hIf.2.2.2 i, hslider]
    exact (hF.2.2.2 i).symm
  · intro i
    rw [hIf.2.2.2 i, hslider]

/-- C4 witness: the initialized two-frame program closes its cycle after two
Next transitions. -/
theorem C4_cycle_closure_witness :
    ((fun t => applyEvent t Event.nextClick)^[2] (initState 2 30)).sliderValue =
      (initState 2 30).sliderValue :=
  (C4_cycle_closure (by norm_num) Reachable.init rfl).1

/-- C4 counterexample: with `numFrames = 1`, one Next transition from the
initialized state (valid: not playing) returns the slider to 0 but does NOT
restore the visibility state: frame 0 starts visible and ends hidden. -/
theorem C4_one_frame_counterexample :
    Reachable 1 30 (initState 1 30) ∧
      eventValid (initState 1 30) Event.nextClick ∧
      ((fun t => applyEvent t Event.nextClick)^[1] (initState 1 30)).sliderValue =
        (initState 1 30).sliderValue ∧
      (initState 1 30).visible 0 = true ∧
      ((fun t => applyEvent t Event.nextClick)^[1] (initState 1 30)).visible 0 = false :=
  ⟨Reachable.init, rfl, rfl, rfl, rfl⟩

/-- C5: from any state whose slider value is in range, a Next click requests
`(currentIndex + 1) mod numFrames` and a Prev click requests
`(currentIndex - 1 + numFrames) mod numFrames` (the Python `(v - 1) %
num_frames` agrees with that formula), and both requested indices lie in
`[0, numFrames)` — including when `currentIndex = 0`. -/
theorem C5_step_requests {s : State} (h2 : s.sliderValue < s.numFrames) :
    (nextFrameClick s).1.sliderValue = (s.sliderValue + 1) % s.numFrames ∧
      (prevFrameClick s).1.sliderValue =
        (s.sliderValue + s.numFrames - 1) % s.numFrames ∧
      (nextFrameClick s).1.sliderValue < s.numFrames ∧
      (prevFrameClick s).1.sliderValue < s.numFrames := by
  refine ⟨rfl, ?_, ?_, ?_⟩
  · show pyMod ((s.sliderValue : Int) - 1) s.numFrames = _
    exact pyMod_sub_one h2
  · exact Nat.mod_lt _ (by omega)
  · show pyMod ((s.sliderValue : Int) - 1) s.numFrames < s.numFrames
    exact pyMod_lt _ (by omega)

/-- C5 witness: at the initialized five-frame state (`currentIndex = 0`),
Next requests 1 and Prev requests 4, both in range. -/
theorem C5_step_requests_witness :
    (nextFrameClick (initState 5 30)).1.sliderValue =
        ((initState 5 30).sliderValue + 1) % (initState 5 30).numFrames ∧
      (prevFrameClick (initState 5 30)).1.sliderValue =
        ((initState 5 30).sliderValue + (initState 5 30).numFrames - 1) %
          (initState 5 30).numFrames ∧
      (nextFrameClick (initState 5 30)).1.sliderValue < (initState 5 30).numFrames ∧
      (prevFrameClick (initState 5 30)).1.sliderValue < (initState 5 30).numFrames :=
  C5_step_requests (by decide)

/-- C6: toggling the `Playing` checkbox stores the new value and the
`on_update` callback copies it into the `disabled` flags of the timestep
slider, the Next button and the Prev button — `true` disables all three,
`false` re-enables all three. -/
theorem C6_playing_toggles_disabled (s : State) (b : Bool) :
    (setPlaying s b).playing = b ∧
      (setPlaying s b).timestepDisabled = b ∧
      (setPlaying s b).nextDisabled = b ∧
      (setPlaying s b).prevDisabled = b :=
  ⟨rfl, rfl, rfl, rfl⟩

/-- C7: each playback-loop iteration sleeps for `1 / fps` with `fps` read at
that iteration; when playing it performs exactly the Next-button transition
(requesting `(currentIndex + 1) mod numFrames`), and when not playing it
leaves the state unchanged. -/
theorem C7_loop_iteration (s : State) :
    (loopIter s).2 = 1 / s.fps ∧
      (s.playing = true → (loopIter s).1 = (nextFrameClick s).1) ∧
      (s.playing = false → (loopIter s).1 = s) := by
  refine ⟨loopIter_sleep s, ?_, ?_⟩
  · intro hp
    simp only [loopIter, hp, if_true]
    rfl
  · intro hp
    simp only [loopIter, hp, if_false]
    rfl

/-- C7 witness: a concrete playing three-frame state ticks exactly like a
Next click and sleeps `1 / fps`. -/
theorem C7_loop_iteration_witness :
    (loopIter (setPlaying (initState 3 30) true)).2 =
        1 / (setPlaying (initState 3 30) true).fps ∧
      (loopIter (setPlaying (initState 3 30) true)).1 =
        (nextFrameClick (setPlaying (initState 3 30) true)).1 :=
  ⟨(C7_loop_iteration (setPlaying (initState 3 30) true)).1,
    (C7_loop_iteration (setPlaying (initState 3 30) true)).2.1 rfl⟩

/-- C8: in every reachable state of a program with at least one frame, the
slider value (`currentIndex`) lies in `[0, numFrames)`. -/
theorem C8_index_in_range {n : Nat} {f0 : ℚ} {s : State}
    (hn : 1 ≤ n) (h : Reachable n f0 s) :
    s.sliderValue < s.numFrames := by
  obtain ⟨h1, h2, -⟩ := reachable_basicInv hn h
  omega

/-- C8 witness: the initialized one-frame state has its slider in range. -/
theorem C8_index_in_range_witness :
    (initState 1 30).sliderValue < (initState 1 30).numFrames :=
  C8_index_in_range (by norm_num) Reachable.init

/-- C9: in every reachable state the framerate value is at least 1 (the FPS
slider's declared minimum), hence nonzero, and the sleep duration `1 / fps`
of a loop iteration is the genuine inverse: multiplied by `fps` it gives 1,
so the division never divides by zero. -/
theorem C9_fps_never_zero {n : Nat} {f0 : ℚ} {s : State}
    (hn : 1 ≤ n) (h : Reachable n f0 s) :
    1 ≤ s.fps ∧ s.fps ≠ 0 ∧ (loopIter s).2 * s.fps = 1 := by
  obtain ⟨-, -, -, h4, -⟩ := reachable_basicInv hn h
  have hne : s.fps ≠ 0 := ne_of_gt (lt_of_lt_of_le zero_lt_one h4)
  refine ⟨h4, hne, ?_⟩
  rw [loopIter_sleep s, one_div, inv_mul_cancel₀ hne]

/-- C9 witness: the initialized state with loader framerate 30. -/
theorem C9_fps_never_zero_witness :
    1 ≤ (initState 1 30).fps ∧ (initState 1 30).fps ≠ 0 ∧
      (loopIter (initState 1 30)).2 * (initState 1 30).fps = 1 :=
  C9_fps_never_zero (by norm_num) Reachable.init

/-- C10: in the timestep-change callback's atomic block, the mutation setting
the new frame visible is queued before the mutation hiding the previous
frame; consequently, whenever the requested index equals the previous index,
the transition leaves that single frame's subtree hidden. -/
theorem C10_hide_wins_on_self_transition (s : State) (v : Nat) :
    (setTimestep s v).2 = [(v, true), (s.prevTimestep, false)] ∧
      (v = s.prevTimestep → (setTimestep s v).1.visible v = false) := by
  refine ⟨rfl, ?_⟩
  intro hv
  show (if v = s.prevTimestep then false
    else if v = v then true else s.visible v) = false
  rw [if_pos hv]

/-- C10 witness: Next with `numFrames = 1` wraps to the same index 0, and the
transition leaves frame 0 hidden while the atomic block queued `(0, true)`
before `(0, false)`. -/
theorem C10_hide_wins_witness :
    (setTimestep (initState 1 30) 0).2 =
        [(0, true), ((initState 1 30).prevTimestep, false)] ∧
      (setTimestep (initState 1 30) 0).1.visible 0 = false :=
  ⟨(C10_hide_wins_on_self_transition (initState 1 30) 0).1,
    (C10_hide_wins_on_self_transition (initState 1 30) 0).2 rfl⟩

end Record3d
